import Mathlib

/-!
# Verification of the SELECT_FROM_MY_IDEAS repository

Shallow embedding of the repository's code and of its specified
orchestration core, with theorems checking the specification's claims.

The repository ships three files: `PRD.md`, `README.md` and the static
web client `src/frontend/app.js`.  The backend described by the spec
(Session / Orchestrator / Conversation Judge, planned as Python services)
is not present in the source tree; where a claim is decided by that
missing code, the corresponding definition is modelled from the spec and
marked `Modelled from the spec:` in its doc comment.  Everything else is
translated from `src/frontend/app.js`.
-/

/-! ## Shared data model (shapes used by both the client and the spec) -/

/-- A clarifying question offered to the user.  Mirrors the objects in the
`selections` array of an agent response in `app.js` (fields `question`,
`options`, `allow_other`). -/
structure Question where
  question : String
  options : List String
  allow_other : Bool
deriving DecidableEq

/-- One action item of a final output (`action_items` entries in `app.js`);
`priority` and `effort` are plain strings, as in the JS objects. -/
structure ActionItem where
  action : String
  priority : String
  effort : String
deriving DecidableEq

/-- The final synthesized report (`final_output` object in `app.js`). -/
structure FinalOutput where
  final_summary : String
  action_items : List ActionItem
  tips : List String
  insights : List String
  next_steps : String
  encouragement : String
deriving DecidableEq

/-- A server (or mock) response as consumed by the client.  JS responses are
duck-typed objects; absent fields are modelled by `none` / neutral defaults
(`final_output` is the field whose presence the handlers branch on). -/
structure SessionResponse where
  session_id : Option String := none
  summary : String := ""
  selections : List Question := []
  should_conclude : Bool := false
  final_output : Option FinalOutput := none
deriving DecidableEq

/-- One submitted answer, as built by `handleNext` in `app.js` and as in the
spec's `UserSelection` dataclass: the question text plus exactly one of a
selected option or a free-text input. -/
structure UserSelection where
  question : String
  selected_option : Option String
  custom_input : Option String
deriving DecidableEq

/-- The error taxonomy entry of spec §7 for failed Generator/Synthesizer
calls (with its `timeout` subtype).  No code in `src/` ever produces it;
it appears here only so that claims about error surfacing can be stated. -/
inductive GenerationFailedError
| failed
| timeout
deriving DecidableEq

/-! ## Conversation Judge (spec-modelled) -/

/-- The accumulated interpretation of user intent
(spec §3 "Understanding Snapshot"). -/
structure Understanding where
  main_themes : List String
  user_intent : String
  clarified_points : List String
  remaining_uncertainties : List String
deriving DecidableEq

namespace Judge

/-- Modelled from the spec: the Conversation Judge `decide` function.  The
backend that would implement it (the Main Agent judge step / orchestrator
service of the PRD) is not under `src/`, which holds only the PRD and the
static frontend.  Spec §4.2, first true rule wins:
1. `roundNumber >= maxRounds` → conclude, reason "max iterations reached";
2. `remainingUncertainties` empty → conclude, reason
   "no remaining uncertainties";
3. otherwise → continue, reason null. -/
def decide (roundNumber : Nat) (understanding : Understanding) (maxRounds : Nat) :
    Bool × Option String :=
  if maxRounds ≤ roundNumber then
    (true, some "max iterations reached")
  else if understanding.remaining_uncertainties.isEmpty then
    (true, some "no remaining uncertainties")
  else
    (false, none)

end Judge

/-! ## The web client (`src/frontend/app.js`) -/

namespace Frontend

/-- The two shapes a `state.selections` entry takes in `app.js`:
`{ type: 'option', value }` or `{ type: 'custom', value }`. -/
inductive SelType
| option
| custom
deriving DecidableEq

/-- One entry of `state.selections`. -/
structure Sel where
  type : SelType
  value : String
deriving DecidableEq

/-- The four screens of the single-page client (`showScreen` targets). -/
inductive Screen
| welcome
| loading
| questions
| results
deriving DecidableEq

/-- Helper for the embedding of JavaScript `String.prototype.trim`:
drop leading whitespace characters from a character list. -/
def dropLeadingWs : List Char → List Char
| [] => []
| c :: cs => if c.isWhitespace then dropLeadingWs cs else c :: cs

/-- Executable embedding of JavaScript `.trim()`: remove whitespace from
both ends of the string. -/
def trim (s : String) : String :=
  String.mk (dropLeadingWs (dropLeadingWs s.data.reverse).reverse)

/-- The client `state` object of `app.js` (lines 9-16), together with the
parts of the DOM the handlers read back: the active screen, the rendered
question list and the rendered final output.  `selections` is a JavaScript
object keyed by stringified question indices; it is embedded as a map from
indices to optional entries. -/
structure ClientState where
  sessionId : Option String
  currentRound : Nat
  maxRounds : Nat
  selections : Nat → Option Sel
  originalInput : String
  currentData : Option SessionResponse
  screen : Screen
  shownFinal : Option FinalOutput
  shownQuestions : List Question

/-- The client state as initialised at page load. -/
def initState : ClientState :=
  { sessionId := none
  , currentRound := 1
  , maxRounds := 5
  , selections := fun _ => none
  , originalInput := ""
  , currentData := none
  , screen := Screen.welcome
  , shownFinal := none
  , shownQuestions := [] }

/-- The round-1 mock question batch of `mockStartSession`. -/
def mockRound1Questions : List Question :=
  [ { question := "이번 주에 딱 한 번, 10분만 시간을 낸다면 뭘 해볼까요?"
    , options :=
        [ "관련 유튜브 영상 1개 찾아서 저장해두기"
        , "노션/메모장에 아이디어 3줄로 정리하기"
        , "비슷한 걸 하는 사람 SNS에서 1명 찾아보기"
        , "가장 쉬운 첫 단계 1개만 적어보기" ]
    , allow_other := true }
  , { question := "현실적으로 이걸 할 수 있는 시간대는 언제인가요?"
    , options :=
        [ "아침 출근 전 (6:00-8:00)"
        , "점심시간 (12:00-13:00)"
        , "퇴근 후 저녁 (19:00-22:00)"
        , "주말 오전 (토/일 10:00-12:00)" ]
    , allow_other := true }] 

/-- `mockStartSession` (app.js lines 129-161).  `Date.now()` is passed in
as `now`; the 1200ms timer does not affect the resolved value.  The JS
`input.slice(0, 50)` counts UTF-16 units while `String.take` counts
characters; the two agree on all non-astral text. -/
def mockStartSession (now : Nat) (input : String) : SessionResponse :=
  { session_id := some ("demo-" ++ toString now)
  , summary :=
      "\"" ++ input.take 50 ++ (if 50 < input.length then "..." else "") ++
        "\" - 좋은 시작이에요! 조금만 더 구체적으로 만들어볼게요."
  , selections := mockRound1Questions
  , should_conclude := false
  , final_output := none }

/-- The mock final report resolved by `mockSubmitSelections` once the round
counter has reached 2. -/
def mockFinalOutput : FinalOutput :=
  { final_summary :=
      "퇴근 후 집에서 유튜브로 관련 영상을 보면서 시작하기로 했어요. 첫 시작은 내일 저녁 8시입니다!"
  , action_items :=
      [ { action := "지금 바로: 유튜브에서 관련 키워드 검색 → 첫 번째 영상 \"나중에 볼 동영상\"에 저장"
        , priority := "high", effort := "minimal" }
      , { action := "오늘 자기 전: 내일 저녁 8시 알람 설정, 알람 이름 \"10분 도전\"으로 변경"
        , priority := "high", effort := "minimal" }
      , { action := "내일 저녁 8시: 저장해둔 영상 틀고 10분 집중해서 보기"
        , priority := "high", effort := "minimal" }
      , { action := "이번 주 일요일: 3일 실천했는지 체크, 다음 주 계획 세우기"
        , priority := "medium", effort := "minimal" } ]
  , tips :=
      [ "완벽하게 하려고 하지 마세요 - 10분만 해도 성공입니다!"
      , "같은 시간에 하면 습관이 더 빨리 자리잡아요"
      , "기록하지 않아도 돼요. 일단 하는 게 핵심!" ]
  , insights :=
      [ "퇴근 후 시간을 선택하신 건 아침에 여유가 없다는 뜻이에요. 저녁 루틴에 자연스럽게 끼워넣는 게 성공 확률이 높습니다."
      , "유튜브를 선택하신 건 혼자 조용히 시작하는 걸 선호하신다는 의미일 수 있어요." ]
  , next_steps :=
      "지금: 유튜브 영상 저장 (1분)\n오늘 밤: 알람 설정 (30초)\n내일 저녁 8시: 첫 도전 10분"
  , encouragement := "작은 시작이 큰 변화를 만들어요. 내일 저녁 8시에 만나요!" }

/-- The round-2 mock question batch of `mockSubmitSelections`. -/
def mockRound2Questions : List Question :=
  [ { question := "첫 시작은 언제 해볼까요?"
    , options :=
        [ "오늘 저녁 (바로 시작)"
        , "내일 저녁 (하루 준비)"
        , "이번 주 토요일 (주말에 여유있게)"
        , "다음 주 월요일 (새로운 시작)" ]
    , allow_other := true }
  , { question := "시작 전에 뭘 해두면 좋을까요?"
    , options :=
        [ "관련 영상/글 1개 미리 저장해두기"
        , "캘린더에 알람 설정하기"
        , "필요한 도구/앱 설치하기"
        , "준비 없이 바로 시작하기" ]
    , allow_other := true }]

/-- `mockSubmitSelections` (app.js lines 164-236): once `round >= 2` it
resolves with an object carrying only `final_output`; below that it
resolves with the round-2 question batch. -/
def mockSubmitSelections (round : Nat) : SessionResponse :=
  if 2 ≤ round then
    { final_output := some mockFinalOutput }
  else
    { summary := "좋아요! 조금 더 구체적으로 정해볼게요."
    , selections := mockRound2Questions
    , should_conclude := false
    , final_output := none }

/-- The three ways the `fetch` inside a wrapper can turn out: a response
with `response.ok` true and a parsed JSON body; a response with
`response.ok` false (the wrapper throws and catches); or a rejected fetch
(network error, caught). -/
inductive FetchOutcome
| ok (body : SessionResponse)
| httpNotOk
| networkError
deriving DecidableEq

/-- `startSession` (app.js lines 94-108).  The whole body sits in a
`try`/`catch` whose handler returns `mockStartSession(input)`: the async
function can never reject, so the embedding always returns `Except.ok` —
a `GenerationFailedError` is never produced. -/
def startSession (now : Nat) (outcome : FetchOutcome) (input : String) :
    Except GenerationFailedError SessionResponse :=
  Except.ok (match outcome with
    | FetchOutcome.ok body => body
    | FetchOutcome.httpNotOk => mockStartSession now input
    | FetchOutcome.networkError => mockStartSession now input)

/-- `submitSelections` (app.js lines 111-125).  As with `startSession`,
the `catch` handler returns `mockSubmitSelections(state.currentRound)`
instead of rethrowing, so the caller always receives a successful
response.  The session id and payload only shape the HTTP request and do
not influence the fallback. -/
def submitSelections (sessionId : Option String) (payload : List UserSelection)
    (outcome : FetchOutcome) (currentRound : Nat) :
    Except GenerationFailedError SessionResponse :=
  Except.ok (match outcome with
    | FetchOutcome.ok body => body
    | FetchOutcome.httpNotOk => mockSubmitSelections currentRound
    | FetchOutcome.networkError => mockSubmitSelections currentRound)

/-- `renderResults` (app.js lines 346-379): fills the result panes from the
final output; no `state` field is touched. -/
def renderResults (fo : FinalOutput) (st : ClientState) : ClientState :=
  { st with shownFinal := some fo }

/-- `renderQuestions` (app.js lines 240-288): stores the response in
`state.currentData`, clears `state.selections`, and rebuilds the question
list in the DOM. -/
def renderQuestions (data : SessionResponse) (st : ClientState) : ClientState :=
  { st with currentData := some data
          , selections := fun _ => none
          , shownQuestions := data.selections }

/-- `resetState` (app.js lines 466-472): nulls the session-scoped fields of
`state`; `maxRounds` is not assigned. -/
def resetState (st : ClientState) : ClientState :=
  { st with sessionId := none
          , currentRound := 1
          , selections := fun _ => none
          , originalInput := ""
          , currentData := none }

/-- `handleBack` (app.js lines 452-455): reset, then show the welcome
screen. -/
def handleBack (st : ClientState) : ClientState :=
  { resetState st with screen := Screen.welcome }

/-- `handleRestart` (app.js lines 458-463): reset, clear the idea input
box (a DOM field outside `state`), then show the welcome screen. -/
def handleRestart (st : ClientState) : ClientState :=
  { resetState st with screen := Screen.welcome }

/-- Whether `handleStart` reaches the `startSession` fetch: it returns
early (focusing the input box) when the trimmed input is empty. -/
def handleStartCallsApi (inputField : String) : Bool :=
  !(trim inputField == "")

/-- `handleStart` (app.js lines 403-426), with the awaited response passed
in as `data`.  On blank input it returns without touching `state`;
otherwise it stores the trimmed input, the session id, resets the round
counter to 1, and branches on `data.final_output`. -/
def handleStart (inputField : String) (data : SessionResponse) (st : ClientState) :
    ClientState :=
  let input := trim inputField
  if input = "" then st
  else
    let st1 := { st with originalInput := input, screen := Screen.loading }
    let st2 := { st1 with sessionId := data.session_id, currentRound := 1 }
    match data.final_output with
    | some fo => { renderResults fo st2 with screen := Screen.results }
    | none => { renderQuestions data st2 with screen := Screen.questions }

/-- `handleNext` (app.js lines 429-449), with the awaited response passed
in as `data`: on a `final_output` response the results are rendered and the
round counter is left alone; otherwise `state.currentRound++` and the next
question batch is rendered. -/
def handleNext (data : SessionResponse) (st : ClientState) : ClientState :=
  let st1 := { st with screen := Screen.loading }
  match data.final_output with
  | some fo => { renderResults fo st1 with screen := Screen.results }
  | none =>
      let st2 := { st1 with currentRound := st1.currentRound + 1 }
      { renderQuestions data st2 with screen := Screen.questions }

/-- Store an entry for question `q` in `state.selections`
(`state.selections[questionIndex] = ...`). -/
def setSel (sel : Nat → Option Sel) (q : Nat) (s : Sel) : Nat → Option Sel :=
  fun i => if i = q then some s else sel i

/-- The user interactions that mutate `state.selections` on the questions
screen.  Each constructor stands for an event on a DOM element that
`renderQuestions` created: option buttons carry `data-question`/`data-option`
indices of rendered questions and options; the "기타 (직접 입력)" button and
the custom text field exist only for questions rendered with
`allow_other`. -/
inductive SelEvent
| clickOption (q o : Nat)
| clickOther (q : Nat)
| typeCustom (q : Nat) (text : String)
deriving DecidableEq

/-- `handleOptionClick` / `handleCustomInput` (app.js lines 291-332):
clicking the `o`-th option of question `q` stores
`{ type: 'option', value: <option text> }`; clicking the "other" button
stores `{ type: 'custom', value: '' }` and reveals the text field; typing
in the text field stores `{ type: 'custom', value: <text> }`.  Events on
elements that were never rendered do not occur and leave the map
unchanged. -/
def applyEvent (qs : List Question) (sel : Nat → Option Sel) :
    SelEvent → Nat → Option Sel
| SelEvent.clickOption q o =>
    match qs.get? q with
    | some qu =>
        match qu.options.get? o with
        | some v => setSel sel q { type := SelType.option, value := v }
        | none => sel
    | none => sel
| SelEvent.clickOther q =>
    match qs.get? q with
    | some qu =>
        if qu.allow_other then setSel sel q { type := SelType.custom, value := "" }
        else sel
    | none => sel
| SelEvent.typeCustom q t =>
    match qs.get? q with
    | some qu =>
        if qu.allow_other then setSel sel q { type := SelType.custom, value := t }
        else sel
    | none => sel

/-- Fold a sequence of selection events over the (freshly cleared)
selections map. -/
def applyEvents (qs : List Question) : List SelEvent → (Nat → Option Sel) →
    Nat → Option Sel
| [], sel => sel
| e :: es, sel => applyEvents qs es (applyEvent qs sel e)

/-- The per-entry test of `updateNextButton` (app.js lines 335-343):
an entry counts as answered when it is an option choice, or a custom entry
whose trimmed value is truthy (non-empty).  An absent key contributes
nothing. -/
def answeredB : Option Sel → Bool
| none => false
| some s =>
    match s.type with
    | SelType.option => true
    | SelType.custom => !(trim s.value).isEmpty

/-- `answeredCount` of `updateNextButton`.  The JS code filters
`Object.keys(state.selections)`; every key is a rendered question index
`< n` and `answeredB none = false`, so counting over `0..n-1` coincides
with counting over the present keys. -/
def answeredCount (n : Nat) (sel : Nat → Option Sel) : Nat :=
  ((List.range n).filter fun q => answeredB (sel q)).length

/-- `btnNext.disabled = answeredCount < questionCount`. -/
def nextButtonDisabled (n : Nat) (sel : Nat → Option Sel) : Bool :=
  decide (answeredCount n sel < n)

/-- The submit button is enabled exactly when it is not disabled. -/
def nextEnabled (n : Nat) (sel : Nat → Option Sel) : Bool :=
  !nextButtonDisabled n sel

/-- One payload entry as built at the top of `handleNext`
(app.js lines 430-434): the rendered question title plus
`selected_option`/`custom_input`, each populated from the entry's type. -/
def mkEntry (q : Question) (s : Sel) : UserSelection :=
  { question := q.question
  , selected_option := if s.type = SelType.option then some s.value else none
  , custom_input := if s.type = SelType.custom then some s.value else none }

/-- The payload `Object.entries(state.selections).map(...)` of
`handleNext`.  ECMAScript enumerates integer-like object keys in ascending
numeric order regardless of insertion order, and every key is a rendered
question index, so the payload is the map over indices `0..n-1` that carry
an entry. -/
def submittedSelections (qs : List Question) (sel : Nat → Option Sel) :
    List UserSelection :=
  (List.range qs.length).filterMap fun i =>
    match qs.get? i, sel i with
    | some q, some s => some (mkEntry q s)
    | _, _ => none

/-- Validity of the selections map with respect to the rendered questions:
every stored entry belongs to a rendered question and is either one of that
question's offered options or a free-text entry for a question rendered
with `allow_other`. -/
def SelValid (qs : List Question) (sel : Nat → Option Sel) : Prop :=
  ∀ q s, sel q = some s →
    ∃ qu, qs.get? q = some qu ∧
      ((s.type = SelType.option ∧ s.value ∈ qu.options) ∨
       (s.type = SelType.custom ∧ qu.allow_other = true))

/-- The fields of the JS `state` object proper (the DOM-derived components
of `ClientState` excluded), used to compare client sessions. -/
def coreState (st : ClientState) :
    Option String × Nat × Nat × (Nat → Option Sel) × String ×
      Option SessionResponse :=
  (st.sessionId, st.currentRound, st.maxRounds, st.selections,
    st.originalInput, st.currentData)

end Frontend

/-! ## Session / Orchestrator core (spec-modelled)

The spec's orchestration core (Session lifecycle, Orchestrator loop) is
backend code that the repository plans (PRD "Project Structure":
`models/session.py`, `services/orchestrator.py`) but does not ship under
`src/`.  The definitions below are modelled from the spec. -/

namespace Backend

/-- Session status, spec §3: `{in_progress, completed}`. -/
inductive Status
| in_progress
| completed
deriving DecidableEq

/-- Modelled from the spec: the Round record (spec §3), grouping the
generated understanding, summary and question batch with the user's
selections and the Judge's decision for the round. -/
structure Round where
  roundNumber : Nat
  understanding : Understanding
  summary : String
  selections : List Question
  userSelections : List UserSelection
  shouldConclude : Bool
  conclusionReason : Option String
deriving DecidableEq

/-- Modelled from the spec: the Session aggregate (spec §3).  The opaque
`id`/`createdAt` fields play no role in any claim and are omitted. -/
structure Session where
  originalInput : String
  rounds : List Round
  currentRound : Nat
  status : Status
  finalOutput : Option FinalOutput
deriving DecidableEq

/-- `InvalidInputError` of spec §7, raised by `Session.create`. -/
inductive CreateError
| invalidInput
deriving DecidableEq

/-- Modelled from the spec: `Session.create` (spec §4.1), absent from
`src/`: fails with `InvalidInputError` if the original input is empty or
exceeds the configured maximum length; otherwise produces a session with
`status=in_progress`, `currentRound=1` and no rounds. -/
def createSession (originalInput : String) (maxLength : Nat) :
    Except CreateError Session :=
  if originalInput = "" then Except.error CreateError.invalidInput
  else if maxLength < originalInput.length then Except.error CreateError.invalidInput
  else Except.ok
    { originalInput := originalInput
    , rounds := []
    , currentRound := 1
    , status := Status.in_progress
    , finalOutput := none }

/-- Modelled from the spec: the per-entry validation of `submitSelections`
(spec §4.3): a selected option must be among the offered options; free
text is accepted only when the question allows it; never both, never
neither. -/
def entryValid (q : Question) (e : UserSelection) : Bool :=
  match e.selected_option, e.custom_input with
  | some v, none => q.options.contains v
  | none, some _ => q.allow_other
  | _, _ => false

/-- Modelled from the spec: the shape check of `submitSelections`
(spec §4.3): one entry per asked question, each entry valid. -/
def validSubmission (qs : List Question) (sels : List UserSelection) : Bool :=
  (sels.length == qs.length) && ((qs.zip sels).all fun p => entryValid p.1 p.2)

/-- Modelled from the spec: the generation step of the Orchestrator
(spec §4.3): the Generator's output for round `currentRound` is wrapped
into a Round, the Judge decides, and the Round is appended atomically; when
the Judge concludes, the Synthesizer output is attached and the session
completes.  The Generator/Synthesizer results `u`, `sm`, `qs`, `fo` are
arbitrary (they come from the external LLM). -/
def commitRound (m : Nat) (s : Session) (u : Understanding) (sm : String)
    (qs : List Question) (fo : FinalOutput) : Session :=
  let d := Judge.decide s.currentRound u m
  let r : Round :=
    { roundNumber := s.currentRound
    , understanding := u
    , summary := sm
    , selections := qs
    , userSelections := []
    , shouldConclude := d.1
    , conclusionReason := d.2 }
  if d.1 then
    { s with rounds := s.rounds ++ [r]
           , status := Status.completed
           , finalOutput := some fo }
  else
    { s with rounds := s.rounds ++ [r] }

/-- Record the user's selections on the most recent round. -/
def setUserSelections : List Round → List UserSelection → List Round
| [], _ => []
| [r], sels => [{ r with userSelections := sels }]
| r :: rest, sels => r :: setUserSelections rest sels

/-- Modelled from the spec: the user-answer step of `submitSelections`
(spec §4.3): record the selections on the current round, then `advance()`
the round counter by one. -/
def recordAndAdvance (s : Session) (sels : List UserSelection) : Session :=
  { s with rounds := setUserSelections s.rounds sels
         , currentRound := s.currentRound + 1 }

/-- Modelled from the spec: one step of the per-session Orchestrator state
machine (spec §4.3), with `m` the configured `maxRounds`.
`generate` fires while round `currentRound` is awaited (one more than the
committed rounds) and commits it atomically; `submit` fires while the last
committed round awaits answers (it must not have concluded), validates the
selections against the asked questions, records them, and advances. -/
inductive OStep (m : Nat) : Session → Session → Prop
| generate (s : Session) (u : Understanding) (sm : String) (qs : List Question)
    (fo : FinalOutput)
    (hst : s.status = Status.in_progress)
    (hpend : s.rounds.length + 1 = s.currentRound) :
    OStep m s (commitRound m s u sm qs fo)
| submit (s : Session) (sels : List UserSelection) (last : Round)
    (hst : s.status = Status.in_progress)
    (hrest : s.rounds.length = s.currentRound)
    (hlast : s.rounds.getLast? = some last)
    (hcont : last.shouldConclude = false)
    (hvalid : validSubmission last.selections sels = true) :
    OStep m s (recordAndAdvance s sels)

/-- The session as created by `startSession` before any round is
generated. -/
def init (input : String) : Session :=
  { originalInput := input
  , rounds := []
  , currentRound := 1
  , status := Status.in_progress
  , finalOutput := none }

/-- The states of the conversation loop reachable from a fresh session. -/
def Reachable (m : Nat) (input : String) (s : Session) : Prop :=
  Relation.ReflTransGen (OStep m) (init input) s

/-- The inductive invariant of the loop: the round counter stays within
`1..m`, the committed rounds trail it by at most one, rounds are numbered
consecutively from 1, and a round that did not conclude has a number below
`m` (the Judge forces conclusion at `m`). -/
def Inv (m : Nat) (s : Session) : Prop :=
  1 ≤ s.currentRound ∧ s.currentRound ≤ m ∧
  (s.rounds.length + 1 = s.currentRound ∨ s.rounds.length = s.currentRound) ∧
  ∀ i r, s.rounds[i]? = some r →
    r.roundNumber = i + 1 ∧ (r.shouldConclude = false → i + 1 < m)

end Backend

/-! ## Concrete sample values used by witnesses -/

/-- A small concrete final report. -/
def sampleFinal : FinalOutput :=
  { final_summary := "요약"
  , action_items := [{ action := "시작하기", priority := "high", effort := "minimal" }]
  , tips := ["작게 시작"]
  , insights := ["선택이 이긴다"]
  , next_steps := "내일 저녁"
  , encouragement := "화이팅!" }

/-- A concrete response carrying a question batch and no final output. -/
def sampleQuestionsResponse : SessionResponse :=
  { session_id := some "demo-1"
  , summary := "좋은 시작"
  , selections := [{ question := "언제 할까요?", options := ["오늘", "내일"], allow_other := true }]
  , should_conclude := false
  , final_output := none }

/-- A concrete response carrying only a final output. -/
def sampleFinalResponse : SessionResponse :=
  { final_output := some sampleFinal }

/-- A mid-session client state with every session-scoped field dirty. -/
def sampleDirtyState : Frontend.ClientState :=
  { sessionId := some "demo-42"
  , currentRound := 3
  , maxRounds := 5
  , selections := fun i =>
      if i = 0 then some { type := Frontend.SelType.custom, value := "직접 입력" } else none
  , originalInput := "운동"
  , currentData := some sampleQuestionsResponse
  , screen := Frontend.Screen.questions
  , shownFinal := none
  , shownQuestions := sampleQuestionsResponse.selections }

/-- A concrete completed session. -/
def sampleCompletedSession : Backend.Session :=
  { originalInput := "아이디어"
  , rounds :=
      [{ roundNumber := 1
       , understanding := ⟨["테마"], "의도", ["명확"], []⟩
       , summary := "요약"
       , selections := []
       , userSelections := []
       , shouldConclude := true
       , conclusionReason := some "no remaining uncertainties" }]
  , currentRound := 1
  , status := Backend.Status.completed
  , finalOutput := some sampleFinal }

/-- A two-question batch used to exercise the submit-button logic. -/
def sampleTwoQuestions : List Question :=
  [ { question := "언제 할까요?", options := ["오늘", "내일"], allow_other := true }
  , { question := "어디서 할까요?", options := ["집", "카페"], allow_other := false } ]

/-- A selections map answering both sample questions: a custom entry for
the first, an offered option for the second. -/
def sampleSel : Nat → Option Frontend.Sel := fun i =>
  if i = 0 then some { type := Frontend.SelType.custom, value := " 주말에 " }
  else if i = 1 then some { type := Frontend.SelType.option, value := "집" }
  else none

/-! ## Theorems -/

/-- C1: the conclusion decision is the fixed two-rule policy, evaluated in
precedence order: a round number at or past `maxRounds` concludes with
reason "max iterations reached" (even when uncertainties remain); below
`maxRounds`, an empty `remainingUncertainties` list concludes with reason
"no remaining uncertainties"; otherwise the decision is continue with a
null reason. -/
theorem judge_decide_two_rule_policy (roundNumber : Nat) (u : Understanding)
    (maxRounds : Nat) :
    (maxRounds ≤ roundNumber →
      Judge.decide roundNumber u maxRounds = (true, some "max iterations reached")) ∧
    (roundNumber < maxRounds → u.remaining_uncertainties = [] →
      Judge.decide roundNumber u maxRounds = (true, some "no remaining uncertainties")) ∧
    (roundNumber < maxRounds → u.remaining_uncertainties ≠ [] →
      Judge.decide roundNumber u maxRounds = (false, none)) := by
  refine ⟨fun h => ?_, fun h he => ?_, fun h hne => ?_⟩
  · simp [Judge.decide, h]
  · simp [Judge.decide, Nat.not_le.mpr h, he]
  · simp [Judge.decide, Nat.not_le.mpr h, List.isEmpty_iff, hne]

/-- Witness for C1: at round 5 of 5 with uncertainties remaining the Judge
concludes by rule 1; at round 2 of 5 with no uncertainties it concludes by
rule 2; at round 2 of 5 with an open uncertainty it continues. -/
theorem judge_decide_two_rule_policy_witness :
    Judge.decide 5 ⟨["t"], "i", [], ["open point"]⟩ 5 =
      (true, some "max iterations reached") ∧
    Judge.decide 2 ⟨["t"], "i", ["p"], []⟩ 5 =
      (true, some "no remaining uncertainties") ∧
    Judge.decide 2 ⟨["t"], "i", [], ["open point"]⟩ 5 = (false, none) :=
  ⟨(judge_decide_two_rule_policy 5 ⟨["t"], "i", [], ["open point"]⟩ 5).1 (by decide),
   (judge_decide_two_rule_policy 2 ⟨["t"], "i", ["p"], []⟩ 5).2.1 (by decide) rfl,
   (judge_decide_two_rule_policy 2 ⟨["t"], "i", [], ["open point"]⟩ 5).2.2 (by decide)
     (by decide)⟩

/-- Counterexample to C2: a network failure during `startSession` is not
surfaced at all — the call resolves successfully with the mock response,
so the caller never sees a `GenerationFailedError`. -/
theorem fetch_failure_not_surfaced :
    Frontend.startSession 0 Frontend.FetchOutcome.networkError "아이디어" =
      Except.ok (Frontend.mockStartSession 0 "아이디어") ∧
    (Frontend.startSession 0 Frontend.FetchOutcome.networkError "아이디어").isOk = true :=
  ⟨rfl, rfl⟩

/-- C2 as amended: a failed fetch (HTTP error status or network rejection)
inside `startSession` or `submitSelections` is silently recovered: the
`catch` handler resolves with mock data (`mockStartSession(input)` /
`mockSubmitSelections(state.currentRound)`), the wrappers themselves touch
no client state, and no outcome whatsoever makes either wrapper produce an
error. -/
theorem fetch_failure_silent_mock_recovery (now round : Nat) (input : String)
    (sessionId : Option String) (payload : List UserSelection)
    (o : Frontend.FetchOutcome) :
    Frontend.startSession now Frontend.FetchOutcome.httpNotOk input =
      Except.ok (Frontend.mockStartSession now input) ∧
    Frontend.startSession now Frontend.FetchOutcome.networkError input =
      Except.ok (Frontend.mockStartSession now input) ∧
    Frontend.submitSelections sessionId payload Frontend.FetchOutcome.httpNotOk round =
      Except.ok (Frontend.mockSubmitSelections round) ∧
    Frontend.submitSelections sessionId payload Frontend.FetchOutcome.networkError round =
      Except.ok (Frontend.mockSubmitSelections round) ∧
    (Frontend.startSession now o input).isOk = true ∧
    (Frontend.submitSelections sessionId payload o round).isOk = true :=
  ⟨rfl, rfl, rfl, rfl, rfl, rfl⟩

/-- C4: the round counter is set to 1 when a session is started, and
`handleNext` increments it by exactly 1 when the response carries the next
question batch, while leaving it untouched when the response concludes the
session with a final output. -/
theorem currentRound_starts_at_one_and_increments_by_one
    (inputField : String) (data : SessionResponse) (st : Frontend.ClientState) :
    (Frontend.trim inputField ≠ "" →
      (Frontend.handleStart inputField data st).currentRound = 1) ∧
    (data.final_output = none →
      (Frontend.handleNext data st).currentRound = st.currentRound + 1) ∧
    (data.final_output ≠ none →
      (Frontend.handleNext data st).currentRound = st.currentRound) := by
  refine ⟨fun h => ?_, fun h => ?_, fun h => ?_⟩
  · cases hfo : data.final_output <;>
      simp [Frontend.handleStart, Frontend.renderQuestions, Frontend.renderResults, h, hfo]
  · simp [Frontend.handleNext, Frontend.renderQuestions, h]
  · cases hfo : data.final_output with
    | none => exact absurd hfo h
    | some fo => simp [Frontend.handleNext, Frontend.renderResults, hfo]

/-- Witness for C4: starting with a padded non-blank input resets the
counter to 1; a question response bumps round 3 to round 4; a final-output
response leaves round 3 alone. -/
theorem currentRound_starts_at_one_and_increments_by_one_witness :
    (Frontend.handleStart " 운동 " sampleQuestionsResponse Frontend.initState).currentRound = 1 ∧
    (Frontend.handleNext sampleQuestionsResponse sampleDirtyState).currentRound =
      sampleDirtyState.currentRound + 1 ∧
    (Frontend.handleNext sampleFinalResponse sampleDirtyState).currentRound =
      sampleDirtyState.currentRound :=
  ⟨(currentRound_starts_at_one_and_increments_by_one " 운동 " sampleQuestionsResponse
      Frontend.initState).1 (by decide),
   (currentRound_starts_at_one_and_increments_by_one " 운동 " sampleQuestionsResponse
      sampleDirtyState).2.1 rfl,
   (currentRound_starts_at_one_and_increments_by_one " 운동 " sampleFinalResponse
      sampleDirtyState).2.2 (by decide)⟩

/-- C7: an original input that trims to the empty string starts no
session: the spec-modelled `Session.create` rejects it with
`InvalidInputError`, and the client's `handleStart` bails out before the
`startSession` call, leaving the whole client state untouched. -/
theorem empty_input_starts_no_session (inputField : String) (maxLength : Nat)
    (data : SessionResponse) (st : Frontend.ClientState)
    (h : Frontend.trim inputField = "") :
    Backend.createSession (Frontend.trim inputField) maxLength =
      Except.error Backend.CreateError.invalidInput ∧
    Frontend.handleStartCallsApi inputField = false ∧
    Frontend.handleStart inputField data st = st := by
  refine ⟨?_, ?_, ?_⟩
  · rw [h]; simp [Backend.createSession]
  · simp [Frontend.handleStartCallsApi, h]
  · simp [Frontend.handleStart, h]

/-- Witness for C7: the all-whitespace input `"   "` trims to empty, is
rejected by `create`, triggers no API call, and leaves the state as it
was. -/
theorem empty_input_starts_no_session_witness :
    Backend.createSession (Frontend.trim "   ") 1000 =
      Except.error Backend.CreateError.invalidInput ∧
    Frontend.handleStartCallsApi "   " = false ∧
    Frontend.handleStart "   " sampleQuestionsResponse Frontend.initState =
      Frontend.initState :=
  empty_input_starts_no_session "   " 1000 sampleQuestionsResponse Frontend.initState
    (by decide)

/-- C8: when the session-start response already carries a final output (the
degenerate immediately-concluding session), the client presents the results
screen with that output and renders no questions: the question pane stays
exactly as it was, i.e. empty on a fresh page. -/
theorem immediate_conclusion_skips_questions (inputField : String)
    (data : SessionResponse) (fo : FinalOutput) (st : Frontend.ClientState)
    (hin : Frontend.trim inputField ≠ "") (hfo : data.final_output = some fo) :
    (Frontend.handleStart inputField data st).screen = Frontend.Screen.results ∧
    (Frontend.handleStart inputField data st).shownFinal = some fo ∧
    (Frontend.handleStart inputField data st).shownQuestions = st.shownQuestions ∧
    (Frontend.handleStart inputField data Frontend.initState).shownQuestions = [] := by
  refine ⟨?_, ?_, ?_, ?_⟩ <;>
    simp [Frontend.handleStart, Frontend.renderResults, hin, hfo, Frontend.initState]

/-- Witness for C8: a start response carrying `sampleFinal` sends the fresh
client straight to the results screen with no questions rendered. -/
theorem immediate_conclusion_skips_questions_witness :
    (Frontend.handleStart "아이디어" sampleFinalResponse Frontend.initState).screen =
      Frontend.Screen.results ∧
    (Frontend.handleStart "아이디어" sampleFinalResponse Frontend.initState).shownFinal =
      some sampleFinal ∧
    (Frontend.handleStart "아이디어" sampleFinalResponse Frontend.initState).shownQuestions =
      Frontend.initState.shownQuestions ∧
    (Frontend.handleStart "아이디어" sampleFinalResponse Frontend.initState).shownQuestions =
      [] :=
  immediate_conclusion_skips_questions "아이디어" sampleFinalResponse sampleFinal
    Frontend.initState (by decide) rfl

/-- C10: `resetState` (reached through both the back and the restart
buttons) nulls `sessionId`, resets `currentRound` to 1, empties
`selections`, blanks `originalInput` and drops `currentData`, while leaving
`maxRounds` alone; with the (never-mutated) `maxRounds` at its initial
value 5, the `state` object after a reset coincides with the freshly
loaded one. -/
theorem resetState_clears_session_scoped_fields (st : Frontend.ClientState) :
    (Frontend.resetState st).sessionId = none ∧
    (Frontend.resetState st).currentRound = 1 ∧
    (Frontend.resetState st).selections = (fun _ => none) ∧
    (Frontend.resetState st).originalInput = "" ∧
    (Frontend.resetState st).currentData = none ∧
    (Frontend.resetState st).maxRounds = st.maxRounds ∧
    Frontend.handleBack st = { Frontend.resetState st with screen := Frontend.Screen.welcome } ∧
    Frontend.handleRestart st = { Frontend.resetState st with screen := Frontend.Screen.welcome } ∧
    (st.maxRounds = Frontend.initState.maxRounds →
      Frontend.coreState (Frontend.resetState st) = Frontend.coreState Frontend.initState) := by
  refine ⟨rfl, rfl, rfl, rfl, rfl, rfl, rfl, rfl, fun h => ?_⟩
  simp [Frontend.coreState, Frontend.resetState, Frontend.initState, h]

/-- Witness for C10: resetting a dirty mid-session state (round 3, stored
selections, stored data) restores exactly the initial `state` object. -/
theorem resetState_clears_session_scoped_fields_witness :
    Frontend.coreState (Frontend.resetState sampleDirtyState) =
      Frontend.coreState Frontend.initState :=
  (resetState_clears_session_scoped_fields sampleDirtyState).2.2.2.2.2.2.2.2 rfl

/-- The freshly cleared selections map (`state.selections = {}` in
`renderQuestions`) is trivially valid. -/
lemma selValid_empty (qs : List Question) :
    Frontend.SelValid qs (fun _ => none) := by
  intro q s h
  simp at h

/-- One user interaction preserves validity of the selections map: option
clicks store an offered option of a rendered question, and the two
free-text interactions only exist for questions rendered with
`allow_other`. -/
lemma selValid_applyEvent (qs : List Question) (sel : Nat → Option Frontend.Sel)
    (e : Frontend.SelEvent) (h : Frontend.SelValid qs sel) :
    Frontend.SelValid qs (Frontend.applyEvent qs sel e) := by
  cases e with
  | clickOption q o =>
    simp only [Frontend.applyEvent]
    split
    · split
      · rename_i oqx qu hq ovx v hv
        intro q' s' hs'
        simp only [Frontend.setSel] at hs'
        by_cases hq' : q' = q
        · rw [if_pos hq'] at hs'
          injection hs' with hs'
          subst hq'
          exact ⟨qu, hq, Or.inl ⟨by rw [← hs'], by rw [← hs']; exact List.get?_mem hv⟩⟩
        · rw [if_neg hq'] at hs'
          exact h q' s' hs'
      · exact h
    · exact h
  | clickOther q =>
    simp only [Frontend.applyEvent]
    split
    · rename_i qu hq
      split
      · rename_i hallow
        intro q' s' hs'
        simp only [Frontend.setSel] at hs'
        by_cases hq' : q' = q
        · rw [if_pos hq'] at hs'
          injection hs' with hs'
          subst hq'
          exact ⟨qu, hq, Or.inr ⟨by rw [← hs'], hallow⟩⟩
        · rw [if_neg hq'] at hs'
          exact h q' s' hs'
      · exact h
    · exact h
  | typeCustom q t =>
    simp only [Frontend.applyEvent]
    split
    · rename_i qu hq
      split
      · rename_i hallow
        intro q' s' hs'
        simp only [Frontend.setSel] at hs'
        by_cases hq' : q' = q
        · rw [if_pos hq'] at hs'
          injection hs' with hs'
          subst hq'
          exact ⟨qu, hq, Or.inr ⟨by rw [← hs'], hallow⟩⟩
        · rw [if_neg hq'] at hs'
          exact h q' s' hs'
      · exact h
    · exact h

/-- Any sequence of user interactions preserves validity of the selections
map. -/
lemma selValid_applyEvents (evs : List Frontend.SelEvent) :
    ∀ (qs : List Question) (sel : Nat → Option Frontend.Sel),
      Frontend.SelValid qs sel → Frontend.SelValid qs (Frontend.applyEvents qs evs sel) := by
  induction evs with
  | nil => intro qs sel h; exact h
  | cons e es ih => intro qs sel h; exact ih qs _ (selValid_applyEvent qs sel e h)

/-- C6: after any sequence of user interactions on a rendered question
batch, every stored selection that `handleNext` would submit is for a
rendered question and yields an entry with exactly one of
`selected_option`/`custom_input` non-null; a non-null `selected_option` is
one of that question's offered options, and a non-null `custom_input` can
only arise for a question whose `allow_other` flag was set. -/
theorem submitted_entry_option_or_custom (qs : List Question)
    (evs : List Frontend.SelEvent) (q : Nat) (s : Frontend.Sel)
    (h : Frontend.applyEvents qs evs (fun _ => none) q = some s) :
    ∃ qu, qs.get? q = some qu ∧
      (Frontend.mkEntry qu s).selected_option.isSome =
        !(Frontend.mkEntry qu s).custom_input.isSome ∧
      (∀ v, (Frontend.mkEntry qu s).selected_option = some v → v ∈ qu.options) ∧
      ((Frontend.mkEntry qu s).custom_input.isSome = true → qu.allow_other = true) := by
  obtain ⟨qu, hqu, hcase⟩ :=
    selValid_applyEvents evs qs (fun _ => none) (selValid_empty qs) q s h
  refine ⟨qu, hqu, ?_, ?_, ?_⟩
  · cases hst : s.type <;> simp [Frontend.mkEntry, hst]
  · intro v hv
    rcases hcase with ⟨ht, hm⟩ | ⟨ht, _⟩
    · simp only [Frontend.mkEntry, ht, if_pos rfl] at hv
      injection hv with hv
      rw [← hv]
      exact hm
    · simp [Frontend.mkEntry, ht] at hv
  · intro hc
    rcases hcase with ⟨ht, _⟩ | ⟨_, ha⟩
    · simp [Frontend.mkEntry, ht] at hc
    · exact ha

/-- Witness for C6: clicking option 0 of sample question 1 stores the
offered option "집", whose submitted entry has a `selected_option` member
of the offered list and a null `custom_input`. -/
theorem submitted_entry_option_or_custom_witness :
    ∃ qu, sampleTwoQuestions.get? 1 = some qu ∧
      (Frontend.mkEntry qu ⟨Frontend.SelType.option, "집"⟩).selected_option.isSome =
        !(Frontend.mkEntry qu ⟨Frontend.SelType.option, "집"⟩).custom_input.isSome ∧
      (∀ v, (Frontend.mkEntry qu ⟨Frontend.SelType.option, "집"⟩).selected_option = some v →
        v ∈ qu.options) ∧
      ((Frontend.mkEntry qu ⟨Frontend.SelType.option, "집"⟩).custom_input.isSome = true →
        qu.allow_other = true) :=
  submitted_entry_option_or_custom sampleTwoQuestions
    [Frontend.SelEvent.clickOption 1 0] 1 ⟨Frontend.SelType.option, "집"⟩ rfl

/-- A filter keeps the whole list exactly when every element passes. -/
lemma length_filter_eq_length_iff {α : Type} (p : α → Bool) (l : List α) :
    (l.filter p).length = l.length ↔ ∀ a ∈ l, p a = true := by
  induction l with
  | nil => simp
  | cons a l ih =>
    by_cases h : p a = true
    · simp [List.filter_cons, h, ih]
    · have hle := List.length_filter_le p l
      simp only [List.filter_cons, if_neg h, List.length_cons]
      constructor
      · intro hh
        exact absurd hh (by omega)
      · intro hall
        exact absurd (hall a (List.mem_cons_self a l)) h

/-- When a partial map is defined on every element of a list, `filterMap`
acts like `map`: it preserves length and positions. -/
lemma filterMap_length_get?_of_all_isSome {α β : Type} (F : α → Option β) :
    ∀ (l : List α), (∀ a ∈ l, (F a).isSome = true) →
      (l.filterMap F).length = l.length ∧
      ∀ i a, l.get? i = some a → (l.filterMap F).get? i = F a := by
  intro l
  induction l with
  | nil =>
    intro _
    refine ⟨rfl, ?_⟩
    intro i a h
    simp at h
  | cons a l ih =>
    intro hall
    obtain ⟨b, hb⟩ := Option.isSome_iff_exists.mp (hall a (List.mem_cons_self a l))
    obtain ⟨ihlen, ihget⟩ := ih (fun x hx => hall x (List.mem_cons_of_mem a hx))
    rw [List.filterMap_cons_some (h := hb)]
    refine ⟨by simp [ihlen], ?_⟩
    intro i x hx
    cases i with
    | zero =>
      simp only [List.get?_cons_zero] at hx ⊢
      injection hx with hx
      rw [← hx, hb]
    | succ n =>
      simp only [List.get?_cons_succ] at hx ⊢
      exact ihget n x hx

/-- C9: the submit button is enabled exactly when every rendered question
has an answer (an option click, or free text whose trimmed value is
non-empty), and whenever it is enabled the payload `handleNext` builds has
exactly one entry per rendered question, the entry at position `i`
belonging to question `i` — ascending question order, whatever order the
user answered in. -/
theorem next_button_gates_complete_payload (qs : List Question)
    (sel : Nat → Option Frontend.Sel) :
    (Frontend.nextEnabled qs.length sel = true ↔
      ∀ i < qs.length, Frontend.answeredB (sel i) = true) ∧
    (Frontend.nextEnabled qs.length sel = true →
      (Frontend.submittedSelections qs sel).length = qs.length ∧
      ∀ i qu, qs.get? i = some qu →
        ∃ s, sel i = some s ∧
          (Frontend.submittedSelections qs sel).get? i =
            some (Frontend.mkEntry qu s)) := by
  have hle : Frontend.answeredCount qs.length sel ≤ qs.length := by
    have := List.length_filter_le (fun q => Frontend.answeredB (sel q))
      (List.range qs.length)
    simpa [Frontend.answeredCount] using this
  have h1 : Frontend.nextEnabled qs.length sel = true ↔
      qs.length ≤ Frontend.answeredCount qs.length sel := by
    simp [Frontend.nextEnabled, Frontend.nextButtonDisabled, Nat.not_lt]
  have hpart1 : Frontend.nextEnabled qs.length sel = true ↔
      ∀ i < qs.length, Frontend.answeredB (sel i) = true := by
    rw [h1]
    constructor
    · intro hge i hi
      have hcnt : ((List.range qs.length).filter
          (fun q => Frontend.answeredB (sel q))).length =
          (List.range qs.length).length := by
        have : Frontend.answeredCount qs.length sel = qs.length :=
          Nat.le_antisymm hle hge
        simpa [Frontend.answeredCount, List.length_range] using this
      exact (length_filter_eq_length_iff _ _).mp hcnt i (List.mem_range.mpr hi)
    · intro hall
      have : ((List.range qs.length).filter
          (fun q => Frontend.answeredB (sel q))).length =
          (List.range qs.length).length :=
        (length_filter_eq_length_iff _ _).mpr
          (fun a ha => hall a (List.mem_range.mp ha))
      have : Frontend.answeredCount qs.length sel = qs.length := by
        simpa [Frontend.answeredCount, List.length_range] using this
      omega
  refine ⟨hpart1, fun hen => ?_⟩
  have hall := hpart1.mp hen
  have hsome : ∀ i ∈ List.range qs.length,
      ((fun i => match qs.get? i, sel i with
        | some q, some s => some (Frontend.mkEntry q s)
        | _, _ => none) i).isSome = true := by
    intro i hi
    have hi' := List.mem_range.mp hi
    obtain ⟨qu, hqu⟩ : ∃ qu, qs.get? i = some qu := by
      cases hq : qs.get? i with
      | none => exact absurd (List.get?_eq_none.mp hq) (by omega)
      | some qu => exact ⟨qu, rfl⟩
    obtain ⟨s, hs⟩ : ∃ s, sel i = some s := by
      cases hsel : sel i with
      | none =>
        have := hall i hi'
        rw [hsel] at this
        simp [Frontend.answeredB] at this
      | some s => exact ⟨s, rfl⟩
    have hqu' : qs[i]? = some qu := by rw [← List.get?_eq_getElem?]; exact hqu
    simp [hqu', hs]
  obtain ⟨hlen, hget⟩ := filterMap_length_get?_of_all_isSome _ _ hsome
  constructor
  · simpa [Frontend.submittedSelections, List.length_range] using hlen
  · intro i qu hqu
    have hi : i < qs.length := by
      rcases List.get?_eq_some.mp hqu with ⟨hi, _⟩
      exact hi
    obtain ⟨s, hs⟩ : ∃ s, sel i = some s := by
      cases hsel : sel i with
      | none =>
        have := hall i hi
        rw [hsel] at this
        simp [Frontend.answeredB] at this
      | some s => exact ⟨s, rfl⟩
    refine ⟨s, hs, ?_⟩
    have := hget i i (List.get?_range hi)
    have hqu' : qs[i]? = some qu := by rw [← List.get?_eq_getElem?]; exact hqu
    simpa [Frontend.submittedSelections, hqu', hs] using this

/-- Witness for C9: with both sample questions answered (one by free text,
one by an option) the submit button is enabled and the payload has one
entry per question. -/
theorem next_button_gates_complete_payload_witness :
    Frontend.nextEnabled sampleTwoQuestions.length sampleSel = true ∧
    (Frontend.submittedSelections sampleTwoQuestions sampleSel).length =
      sampleTwoQuestions.length := by
  have h := next_button_gates_complete_payload sampleTwoQuestions sampleSel
  have hen : Frontend.nextEnabled sampleTwoQuestions.length sampleSel = true :=
    h.1.mpr (by decide)
  exact ⟨hen, (h.2 hen).1⟩

/-- Rule 1 of the Judge fires at or past `maxRounds` whatever the
understanding says. -/
lemma decide_fst_of_le (r : Nat) (u : Understanding) (m : Nat) (h : m ≤ r) :
    (Judge.decide r u m).1 = true := by
  simp [Judge.decide, h]

/-- A continue decision is only possible strictly below `maxRounds`. -/
lemma lt_of_decide_fst_false (r : Nat) (u : Understanding) (m : Nat)
    (h : (Judge.decide r u m).1 = false) : r < m := by
  by_contra hlt
  simp [Judge.decide, Nat.not_lt.mp hlt] at h

/-- `commitRound` appends exactly one round, carrying the Judge's decision
for the current round number. -/
lemma commitRound_rounds (m : Nat) (s : Backend.Session) (u : Understanding)
    (sm : String) (qs : List Question) (fo : FinalOutput) :
    (Backend.commitRound m s u sm qs fo).rounds = s.rounds ++
      [{ roundNumber := s.currentRound
       , understanding := u
       , summary := sm
       , selections := qs
       , userSelections := []
       , shouldConclude := (Judge.decide s.currentRound u m).1
       , conclusionReason := (Judge.decide s.currentRound u m).2 }] := by
  unfold Backend.commitRound
  dsimp only
  split <;> rfl

/-- `commitRound` leaves the round counter alone (advancing is the user
step). -/
lemma commitRound_currentRound (m : Nat) (s : Backend.Session)
    (u : Understanding) (sm : String) (qs : List Question) (fo : FinalOutput) :
    (Backend.commitRound m s u sm qs fo).currentRound = s.currentRound := by
  unfold Backend.commitRound
  dsimp only
  split <;> rfl

/-- Recording user selections does not change the number of rounds. -/
lemma setUserSelections_length (rs : List Backend.Round)
    (sels : List UserSelection) :
    (Backend.setUserSelections rs sels).length = rs.length := by
  induction rs with
  | nil => rfl
  | cons r rest ih =>
    cases rest with
    | nil => rfl
    | cons b rest2 =>
      simp only [Backend.setUserSelections, List.length_cons]
      rw [ih]
      simp [List.length_cons]

/-- Recording user selections changes neither the round numbers nor the
Judge decisions stored on the rounds. -/
lemma setUserSelections_getElem_proj (rs : List Backend.Round)
    (sels : List UserSelection) (i : Nat) :
    ((Backend.setUserSelections rs sels)[i]?).map
        (fun r => (r.roundNumber, r.shouldConclude)) =
      (rs[i]?).map (fun r => (r.roundNumber, r.shouldConclude)) := by
  induction rs generalizing i with
  | nil => rfl
  | cons r rest ih =>
    cases rest with
    | nil =>
      cases i with
      | zero => rfl
      | succ n => rfl
    | cons b rest2 =>
      cases i with
      | zero => simp only [Backend.setUserSelections, List.getElem?_cons_zero]
      | succ n =>
        simp only [Backend.setUserSelections, List.getElem?_cons_succ]
        exact ih n

/-- The loop invariant holds for a freshly created session. -/
lemma inv_init (m : Nat) (input : String) (hm : 1 ≤ m) :
    Backend.Inv m (Backend.init input) := by
  refine ⟨Nat.le_refl 1, hm, Or.inl rfl, ?_⟩
  intro i r h
  simp [Backend.init] at h

/-- One Orchestrator step preserves the loop invariant. -/
lemma inv_step (m : Nat) (s s' : Backend.Session) (hstep : Backend.OStep m s s')
    (hinv : Backend.Inv m s) : Backend.Inv m s' := by
  obtain ⟨h1, h2, hdisj, hnum⟩ := hinv
  cases hstep with
  | generate u sm qs fo hst hpend =>
    refine ⟨?_, ?_, ?_, ?_⟩
    · rw [commitRound_currentRound]; exact h1
    · rw [commitRound_currentRound]; exact h2
    · right
      rw [commitRound_rounds, commitRound_currentRound, List.length_append]
      simpa using hpend
    · intro i r hir
      rw [commitRound_rounds] at hir
      rcases Nat.lt_or_ge i s.rounds.length with hi | hi
      · rw [List.getElem?_append, if_pos hi] at hir
        exact hnum i r hir
      · rw [List.getElem?_append, if_neg (Nat.not_lt.mpr hi)] at hir
        have hbound := (List.getElem?_eq_some.mp hir).1
        simp only [List.length_singleton] at hbound
        have hieq : i = s.rounds.length := by omega
        rw [hieq, Nat.sub_self] at hir
        simp only [List.getElem?_cons_zero] at hir
        injection hir with hir
        subst hir
        constructor
        · show s.currentRound = i + 1
          omega
        · intro hfalse
          have := lt_of_decide_fst_false s.currentRound u m hfalse
          omega
  | submit sels last hst hrest hlast hcont hvalid =>
    have hlen1 : 1 ≤ s.rounds.length := by omega
    have hidx : s.rounds[s.rounds.length - 1]? = some last := by
      rw [← List.getLast?_eq_getElem? s.rounds]
      exact hlast
    have hlastnum := hnum (s.rounds.length - 1) last hidx
    have hlt : s.currentRound < m := by
      have := hlastnum.2 hcont
      omega
    refine ⟨?_, ?_, ?_, ?_⟩
    · show 1 ≤ s.currentRound + 1
      omega
    · show s.currentRound + 1 ≤ m
      omega
    · left
      show (Backend.setUserSelections s.rounds sels).length + 1 = s.currentRound + 1
      rw [setUserSelections_length]
      omega
    · intro i r hir
      have hir' : (Backend.setUserSelections s.rounds sels)[i]? = some r := hir
      have hproj := setUserSelections_getElem_proj s.rounds sels i
      rw [hir'] at hproj
      cases hr0 : s.rounds[i]? with
      | none => rw [hr0] at hproj; simp at hproj
      | some r0 =>
        rw [hr0] at hproj
        have hp : (r.roundNumber, r.shouldConclude) =
            (r0.roundNumber, r0.shouldConclude) := by
          simpa using hproj
        have hn : r.roundNumber = r0.roundNumber := congrArg Prod.fst hp
        have hc : r.shouldConclude = r0.shouldConclude := congrArg Prod.snd hp
        have h0 := hnum i r0 hr0
        exact ⟨by rw [hn]; exact h0.1, fun hf => h0.2 (by rw [← hc]; exact hf)⟩

/-- The loop invariant holds in every reachable state. -/
lemma inv_reachable (m : Nat) (input : String) (s : Backend.Session)
    (hm : 1 ≤ m) (h : Backend.Reachable m input s) : Backend.Inv m s := by
  induction h with
  | refl => exact inv_init m input hm
  | tail hsteps hstep ih => exact inv_step m _ _ hstep ih

/-- C3: in every state of the conversation loop reachable from a fresh
session (with the default `maxRounds = 5`), at most 5 rounds have been
committed; every committed round whose number has reached 5 carries a
conclude decision, and once the round counter is at or past 5 the Judge
can only answer conclude. -/
theorem session_rounds_bounded_by_maxRounds (input : String)
    (s : Backend.Session) (h : Backend.Reachable 5 input s) :
    s.rounds.length ≤ 5 ∧
    (∀ (i : Nat) (r : Backend.Round), s.rounds[i]? = some r →
      5 ≤ r.roundNumber → r.shouldConclude = true) ∧
    (∀ u, 5 ≤ s.currentRound → (Judge.decide s.currentRound u 5).1 = true) := by
  obtain ⟨h1, h2, hdisj, hnum⟩ := inv_reachable 5 input s (by omega) h
  refine ⟨by omega, ?_, ?_⟩
  · intro i r hir hge
    obtain ⟨hn, hcl⟩ := hnum i r hir
    cases hb : r.shouldConclude with
    | true => rfl
    | false =>
      exfalso
      have := hcl hb
      rw [hn] at hge
      omega
  · intro u hge
    exact decide_fst_of_le _ u _ hge

/-- Witness for C3: the freshly created session is reachable and respects
the round bound. -/
theorem session_rounds_bounded_by_maxRounds_witness :
    (Backend.init "아이디어").rounds.length ≤ 5 :=
  (session_rounds_bounded_by_maxRounds "아이디어" (Backend.init "아이디어")
    Relation.ReflTransGen.refl).1

/-- C5: a completed session admits no further Orchestrator step at all, so
`status` can never move back from `completed` to `in_progress`: the only
transition the machine ever performs on `status` is
`in_progress → completed` inside `commitRound`. -/
theorem completed_session_admits_no_step (m : Nat) (s s' : Backend.Session)
    (h : s.status = Backend.Status.completed) : ¬ Backend.OStep m s s' := by
  intro hstep
  cases hstep with
  | generate u sm qs fo hst hpend =>
    rw [h] at hst
    exact Backend.Status.noConfusion hst
  | submit sels last hst hrest hlast hcont hvalid =>
    rw [h] at hst
    exact Backend.Status.noConfusion hst

/-- Witness for C5: the sample completed session cannot step (in
particular not back to answering questions). -/
theorem completed_session_admits_no_step_witness :
    ¬ Backend.OStep 5 sampleCompletedSession sampleCompletedSession :=
  completed_session_admits_no_step 5 sampleCompletedSession
    sampleCompletedSession rfl
